import Mathlib

/-!
Shallow embedding of the FIR legal-analysis web client (React/TypeScript).
The source files embedded here are `src/pages/UploadPage.tsx` (the first
unnamed source part), `src/pages/ResultsPage.tsx` (the second unnamed source
part) and `src/components/ResultsContent.tsx`.  Pure rendering helpers become
Lean functions; the event handlers become explicit state transformers taking
the outcome of their `fetch` calls as a parameter and returning the new
component state together with the list of HTTP requests they issued.
-/

namespace FIRLA

/-! ## List machinery for the two-column layout

`ResultsContent.tsx` repeatedly splits a list with
`entries.filter((_, idx) => idx % 2 === 0)` and
`entries.filter((_, idx) => idx % 2 === 1)`.
`filterIdxFrom` embeds a JS `Array.prototype.filter` whose callback looks at
the element index; `n` is the index of the head of the remaining list. -/

def filterIdxFrom (p : Nat → Bool) : Nat → List α → List α
  | _, [] => []
  | n, x :: xs => if p n then x :: filterIdxFrom p (n + 1) xs else filterIdxFrom p (n + 1) xs

def filterIdx (p : Nat → Bool) (l : List α) : List α := filterIdxFrom p 0 l

/-- Left column of the two-column layout: `entries.filter((_, idx) => idx % 2 === 0)`. -/
def leftColumn (l : List α) : List α := filterIdx (fun i => i % 2 == 0) l

/-- Right column of the two-column layout: `entries.filter((_, idx) => idx % 2 === 1)`. -/
def rightColumn (l : List α) : List α := filterIdx (fun i => i % 2 == 1) l

mutual

/-- Elements of a list sitting at even 0-based positions, in order. -/
def evens : List α → List α
  | [] => []
  | x :: xs => x :: odds xs

/-- Elements of a list sitting at odd 0-based positions, in order. -/
def odds : List α → List α
  | [] => []
  | _ :: xs => evens xs

end

/-- Alternating interleaving, taking the head from the first list first. -/
def interleave : List α → List α → List α
  | [], ys => ys
  | x :: xs, ys => x :: interleave ys xs
termination_by xs ys => xs.length + ys.length
decreasing_by
  simp only [List.length_cons]
  omega

/-! ## The workflow state (the `WorkflowState` interface of `ResultsPage.tsx`
and `ResultsContent.tsx`).  Optional JSON fields become `Option`s; a JS
`Record<string, string>` becomes an association list. -/

structure StatuteSection where
  section_number : String
  section_description : String
  why_section_is_relevant : String
  source : Option String
deriving DecidableEq

structure PlanItem where
  title : String
  date_range : Option String
  description : String
deriving DecidableEq

structure TimelineInfo where
  date_string : String
  timeline : String
deriving DecidableEq

structure HistoricalCase where
  title : String
  url : Option String
  summary : String
deriving DecidableEq

structure DefencePair where
  defence_perspective : List String
  rebuttal : List String
deriving DecidableEq

structure CourtSummary where
  case_title : String
  ndps_sections : List String
  core_issue : String
  date_and_place : String
  recovery : String
  quantity : String
  safeguards : List String
  conscious_possession_proven : List String
  procedural_compliance : List String
  legal_position : List String
  judicial_balance : String
  prosecution_prayer : List String
deriving DecidableEq

structure Chargesheet where
  case_title : String
  ndps_sections : List String
  bns_sections : List String
  bnss_sections : List String
  bsa_sections : List String
  core_issue : String
  date_and_place : String
  recovery : String
  quantity : String
  safeguards : List String
  conscious_possession_proven : List String
  procedural_compliance : List String
  legal_position : List String
  judicial_balance : String
  prosecution_prayer : List String
deriving DecidableEq

structure WorkflowState where
  fir_facts : Option (List (String × String))
  ndps_sections : Option (List StatuteSection)
  bns_sections : Option (List StatuteSection)
  bnss_sections : Option (List StatuteSection)
  bsa_sections : Option (List StatuteSection)
  investigation_plan : Option (List PlanItem)
  investigation_and_legal_timeline : Option TimelineInfo
  evidence_checklist : Option String
  dos : Option (List String)
  donts : Option (List String)
  potential_prosecution_weaknesses : Option (List (String × String))
  next_steps : Option (List String)
  historical_cases : Option (List HistoricalCase)
  defence_perspective_rebuttal : Option (List DefencePair)
  summary_for_the_court : Option CourtSummary
  chargesheet : Option Chargesheet
  sections : Option (List String)
deriving DecidableEq

/-- Workflow state with every optional field absent. -/
def emptyWs : WorkflowState :=
  ⟨none, none, none, none, none, none, none, none, none, none, none, none, none, none,
    none, none, none⟩

/-! ## Tab filtering (`ResultsContent.tsx`, the `allTabs` array and the
`tabs` filter).  JS truthiness of the per-tab `condition` is made explicit:
an optional array used via `?.length` is truthy iff present and non-empty, an
optional object is truthy iff present (even when empty), an optional string
is truthy iff present and non-empty, and `state.dos && state.donts` is truthy
iff both arrays are present (a JS array is truthy even when empty). -/

def listTruthy (o : Option (List α)) : Bool :=
  match o with
  | none => false
  | some l => !l.isEmpty

def strTruthy (o : Option String) : Bool :=
  match o with
  | none => false
  | some s => !s.isEmpty

structure Tab where
  id : String
  condition : Bool
  sectionId : Option String
deriving DecidableEq

/-- The `allTabs` array of `ResultsContent`, with each JS `condition`
expression replaced by its explicit truthiness value. -/
def allTabs (s : WorkflowState) : List Tab :=
  [ ⟨"fir-facts", s.fir_facts.isSome, none⟩,
    ⟨"ndps", listTruthy s.ndps_sections, some "ndps"⟩,
    ⟨"bns", listTruthy s.bns_sections, some "bns"⟩,
    ⟨"bnss", listTruthy s.bnss_sections, some "bnss"⟩,
    ⟨"bsa", listTruthy s.bsa_sections, some "bsa"⟩,
    ⟨"investigation", listTruthy s.investigation_plan, some "investigation_plan"⟩,
    ⟨"timeline", s.investigation_and_legal_timeline.isSome, some "timeline"⟩,
    ⟨"evidence", strTruthy s.evidence_checklist, some "evidence"⟩,
    ⟨"dos-donts", s.dos.isSome && s.donts.isSome, some "dos_and_donts"⟩,
    ⟨"weaknesses", s.potential_prosecution_weaknesses.isSome, some "weaknesses"⟩,
    ⟨"defence-rebuttal", listTruthy s.defence_perspective_rebuttal, some "defence_rebuttal"⟩,
    ⟨"court-summary", s.summary_for_the_court.isSome, some "court_summary"⟩,
    ⟨"chargesheet", s.chargesheet.isSome, some "chargesheet"⟩,
    ⟨"next-steps", listTruthy s.next_steps, none⟩,
    ⟨"historical", listTruthy s.historical_cases, some "historical_cases"⟩ ]

/-- The filter callback of `const tabs = allTabs.filter(tab => ...)`. -/
def tabKeep (sel : Option (List String)) (tab : Tab) : Bool :=
  if tab.id == "fir-facts" then tab.condition
  else if !tab.condition then false
  else if (match sel with | none => true | some l => l.isEmpty) then true
  else
    match tab.sectionId with
    | none => true
    | some sid => (sel.getD []).contains sid

/-- The rendered tab list `tabs` of `ResultsContent`. -/
def renderTabs (s : WorkflowState) (sel : Option (List String)) : List Tab :=
  (allTabs s).filter (tabKeep sel)

/-- Selection gate, as C1 words it: the selection list is absent or empty, or
the tab has no section mapping, or the sectionId is selected. -/
def selGate (sel : Option (List String)) (sid : Option String) : Bool :=
  match sel with
  | none => true
  | some l =>
    if l.isEmpty then true
    else
      match sid with
      | none => true
      | some s => l.contains s

/-- Data condition as claim C1 words it: the corresponding field is present,
and for array-backed tabs non-empty. -/
def specDataCond (s : WorkflowState) (i : String) : Bool :=
  if i == "ndps" then listTruthy s.ndps_sections
  else if i == "bns" then listTruthy s.bns_sections
  else if i == "bnss" then listTruthy s.bnss_sections
  else if i == "bsa" then listTruthy s.bsa_sections
  else if i == "investigation" then listTruthy s.investigation_plan
  else if i == "timeline" then s.investigation_and_legal_timeline.isSome
  else if i == "evidence" then s.evidence_checklist.isSome
  else if i == "dos-donts" then s.dos.isSome && s.donts.isSome
  else if i == "weaknesses" then s.potential_prosecution_weaknesses.isSome
  else if i == "defence-rebuttal" then listTruthy s.defence_perspective_rebuttal
  else if i == "court-summary" then s.summary_for_the_court.isSome
  else if i == "chargesheet" then s.chargesheet.isSome
  else if i == "next-steps" then listTruthy s.next_steps
  else if i == "historical" then listTruthy s.historical_cases
  else false

/-- Data condition after the correction: as `specDataCond`, except that the
evidence tab additionally requires the present checklist string to be
non-empty (JS treats the empty string as falsy). -/
def amendDataCond (s : WorkflowState) (i : String) : Bool :=
  if i == "ndps" then listTruthy s.ndps_sections
  else if i == "bns" then listTruthy s.bns_sections
  else if i == "bnss" then listTruthy s.bnss_sections
  else if i == "bsa" then listTruthy s.bsa_sections
  else if i == "investigation" then listTruthy s.investigation_plan
  else if i == "timeline" then s.investigation_and_legal_timeline.isSome
  else if i == "evidence" then strTruthy s.evidence_checklist
  else if i == "dos-donts" then s.dos.isSome && s.donts.isSome
  else if i == "weaknesses" then s.potential_prosecution_weaknesses.isSome
  else if i == "defence-rebuttal" then listTruthy s.defence_perspective_rebuttal
  else if i == "court-summary" then s.summary_for_the_court.isSome
  else if i == "chargesheet" then s.chargesheet.isSome
  else if i == "next-steps" then listTruthy s.next_steps
  else if i == "historical" then listTruthy s.historical_cases
  else false

/-- Rendered tab ids as claim C1, read literally, predicts them. -/
def specRenderedIds (s : WorkflowState) (sel : Option (List String)) : List String :=
  ((allTabs s).filter (fun tab =>
    if tab.id == "fir-facts" then s.fir_facts.isSome
    else specDataCond s tab.id && selGate sel tab.sectionId)).map Tab.id

/-- Rendered tab ids as the amended claim C1 predicts them. -/
def amendedRenderedIds (s : WorkflowState) (sel : Option (List String)) : List String :=
  ((allTabs s).filter (fun tab =>
    if tab.id == "fir-facts" then s.fir_facts.isSome
    else amendDataCond s tab.id && selGate sel tab.sectionId)).map Tab.id

/-- Claim C1 read literally: for every state and selection the rendered tab
ids are exactly those whose claim-side data condition and selection gate
hold, in the order of `allTabs`. -/
def claimC1Statement : Prop :=
  ∀ (s : WorkflowState) (sel : Option (List String)),
    (renderTabs s sel).map Tab.id = specRenderedIds s sel

/-! ## The upload page (`UploadPage.tsx`). -/

structure JsFile where
  name : String
  type : String
  size : Nat
deriving DecidableEq

structure UploadPageState where
  file : Option JsFile
  selectedSections : List String
  isUploading : Bool
  error : Option String
deriving DecidableEq

/-- The `handleFileSelect` handler: the file chosen through the file input
(`e.target.files?.[0]`), when present, must be a PDF of at most 10 MiB. -/
def handleFileSelect (st : UploadPageState) (selectedFile : Option JsFile) : UploadPageState :=
  match selectedFile with
  | none => st
  | some f =>
    if f.type != "application/pdf" then { st with error := some "Please select a PDF file" }
    else if f.size > 10 * 1024 * 1024 then
      { st with error := some "File size exceeds 10MB limit" }
    else { st with file := some f, error := none }

/-- The `handleDrop` handler: a dropped file is accepted whenever it is a
PDF; there is no size check on this path. -/
def handleDrop (st : UploadPageState) (droppedFile : Option JsFile) : UploadPageState :=
  match droppedFile with
  | some f =>
    if f.type == "application/pdf" then { st with file := some f, error := none }
    else { st with error := some "Please drop a PDF file" }
  | none => { st with error := some "Please drop a PDF file" }

inductive HttpMethod
  | get
  | post
deriving DecidableEq

/-- An HTTP request issued through `fetch`, with the form-data fields the two
pages ever send. -/
structure Request where
  url : String
  method : HttpMethod
  formFile : Option JsFile
  formSections : Option String
  formWorkflowId : Option String
deriving DecidableEq

def getRequest (u : String) : Request := ⟨u, .get, none, none, none⟩

def uploadRequest (f : Option JsFile) (sectionsJson : String) (wid : Option String) : Request :=
  ⟨"/upload", .post, f, some sectionsJson, wid⟩

/-- JSON escaping of one character, as `JSON.stringify` performs it on the
characters that can occur here. -/
def jsonEscapeChar (c : Char) : String :=
  if c = '\\' then "\\\\"
  else if c = '"' then "\\\""
  else if c = '\n' then "\\n"
  else if c = '\r' then "\\r"
  else if c = '\t' then "\\t"
  else String.mk [c]

def jsonEncodeString (s : String) : String :=
  "\"" ++ String.join (s.data.map jsonEscapeChar) ++ "\""

/-- `JSON.stringify` of a list of strings. -/
def jsonEncodeStringList (l : List String) : String :=
  "[" ++ String.intercalate "," (l.map jsonEncodeString) ++ "]"

/-- The parsed JSON body of an `/upload` response together with the HTTP
`ok` flag. -/
structure UploadResponse where
  ok : Bool
  success : Bool
  workflow_id : String
  detail : Option String
deriving DecidableEq

/-- Outcome of an `/upload` fetch: either the promise chain threw (network
failure or invalid JSON) or a parsed response came back. -/
inductive UploadOutcome
  | thrown
  | response (r : UploadResponse)
deriving DecidableEq

/-- JS `a || b` on an optional string: the fallback is used when the field is
absent or the empty string. -/
def jsOrString (o : Option String) (fallback : String) : String :=
  match o with
  | some s => if s == "" then fallback else s
  | none => fallback

structure SubmitResult where
  state : UploadPageState
  requests : List Request
  navigatedTo : Option String
deriving DecidableEq

/-- The `handleSubmit` handler of the upload page. -/
def handleSubmit (st : UploadPageState) (outcome : UploadOutcome) : SubmitResult :=
  match st.file with
  | none => ⟨{ st with error := some "Please select a PDF file" }, [], none⟩
  | some f =>
    let st1 := { st with isUploading := true, error := none }
    if st1.selectedSections.isEmpty then
      ⟨{ st1 with error := some "Please select at least one section to analyze" }, [], none⟩
    else
      let req := uploadRequest (some f) (jsonEncodeStringList st1.selectedSections) none
      match outcome with
      | .thrown =>
        ⟨{ st1 with
            error := some "Network error. Please check your connection and try again.",
            isUploading := false }, [req], none⟩
      | .response r =>
        if r.ok && r.success then ⟨st1, [req], some ("/results/" ++ r.workflow_id)⟩
        else
          ⟨{ st1 with
              error := some (jsOrString r.detail "Error processing PDF. Please try again."),
              isUploading := false }, [req], none⟩

/-- The `disabled` condition of the submit button:
`!file || isUploading || selectedSections.length === 0`. -/
def submitDisabled (st : UploadPageState) : Bool :=
  st.file.isNone || st.isUploading || st.selectedSections.isEmpty

/-! ## The results page (`ResultsPage.tsx`). -/

structure ResultsPageState where
  state : Option WorkflowState
  loading : Bool
  error : Option String
  showAddSections : Bool
  selectedNewSections : List String
  isGenerating : Bool
  isDownloading : Bool
deriving DecidableEq

/-- Outcome of a `/api/results/...` fetch: the promise chain threw with an
`Error` carrying message `m`, or a response with `ok` flag and parsed body
came back. -/
inductive ResultsOutcome
  | thrownMsg (m : String)
  | response (ok : Bool) (data : WorkflowState)
deriving DecidableEq

/-- The `fetchResults` effect that runs once per `workflowId` value: a single
GET of `/api/results/...` whose failure only sets the error string. -/
def resultsEffect (st : ResultsPageState) (workflowId : Option String)
    (outcome : ResultsOutcome) : ResultsPageState × List Request :=
  match workflowId with
  | none => (st, [])
  | some w =>
    let req := getRequest ("/api/results/" ++ w)
    match outcome with
    | .thrownMsg m => ({ st with error := some m, loading := false }, [req])
    | .response ok data =>
      if ok then ({ st with state := some data, loading := false }, [req])
      else ({ st with error := some "Failed to fetch results", loading := false }, [req])

/-- The `handleAddSections` handler: POST the new sections to `/upload`, and
on success re-fetch the results to refresh the page state. -/
def handleAddSections (st : ResultsPageState) (workflowId : Option String)
    (uploadOutcome : UploadOutcome) (refreshOutcome : ResultsOutcome) :
    ResultsPageState × List Request :=
  match workflowId with
  | none => ({ st with error := some "Please select at least one section to generate" }, [])
  | some w =>
    if st.selectedNewSections.isEmpty then
      ({ st with error := some "Please select at least one section to generate" }, [])
    else
      let st1 := { st with isGenerating := true, error := none }
      let req := uploadRequest none (jsonEncodeStringList st.selectedNewSections) (some w)
      match uploadOutcome with
      | .thrown =>
        ({ st1 with
            error := some "Network error. Please check your connection and try again.",
            isGenerating := false }, [req])
      | .response r =>
        if r.ok && r.success then
          let refreshReq := getRequest ("/api/results/" ++ w)
          match refreshOutcome with
          | .thrownMsg _ =>
            ({ st1 with
                error := some "Network error. Please check your connection and try again.",
                isGenerating := false }, [req, refreshReq])
          | .response rok data =>
            if rok then
              ({ st1 with
                  state := some data,
                  showAddSections := false,
                  selectedNewSections := [],
                  isGenerating := false }, [req, refreshReq])
            else ({ st1 with isGenerating := false }, [req, refreshReq])
        else
          ({ st1 with
              error := some (jsOrString r.detail "Error generating additional sections"),
              isGenerating := false }, [req])

/-- Outcome of a `/api/document/...` fetch: thrown, or a response with `ok`
flag and body bytes. -/
inductive DocumentOutcome
  | thrown
  | response (ok : Bool) (blob : List Nat)
deriving DecidableEq

structure DownloadResult where
  state : ResultsPageState
  requests : List Request
  savedFile : Option (String × List Nat)
  alertMsg : Option String
deriving DecidableEq

/-- The Generate Document button's `onClick` handler. -/
def downloadClick (st : ResultsPageState) (workflowId : Option String)
    (outcome : DocumentOutcome) : DownloadResult :=
  match workflowId with
  | none => ⟨st, [], none, none⟩
  | some w =>
    if st.isDownloading then ⟨st, [], none, none⟩
    else
      let st1 := { st with isDownloading := true }
      let req := getRequest ("/api/document/" ++ w)
      match outcome with
      | .thrown =>
        ⟨{ st1 with isDownloading := false }, [req], none,
          some "Failed to generate document. Please try again."⟩
      | .response ok blob =>
        if ok then
          ⟨{ st1 with isDownloading := false }, [req],
            some ("FIR_Report_" ++ w ++ ".docx", blob), none⟩
        else
          ⟨{ st1 with isDownloading := false }, [req], none,
            some "Failed to generate document. Please try again."⟩

/-! ## Failure predicates on fetch outcomes, for C6. -/

def uploadFailed (o : UploadOutcome) : Prop :=
  o = .thrown ∨ ∃ r, o = .response r ∧ (r.ok && r.success) = false

def resultsFetchFailed (o : ResultsOutcome) : Prop :=
  (∃ m, o = .thrownMsg m) ∨ ∃ d, o = .response false d

def documentFailed (o : DocumentOutcome) : Prop :=
  o = .thrown ∨ ∃ blob, o = .response false blob

/-- Claim C6 read literally: every failing HTTP operation sets an error
string, and leaves the selected file, the section selections and the loaded
workflow state unchanged. -/
def claimC6Statement : Prop :=
  (∀ (st : UploadPageState) (f : JsFile) (o : UploadOutcome),
    st.file = some f → st.selectedSections ≠ [] → uploadFailed o →
      (handleSubmit st o).state.error.isSome = true ∧
      (handleSubmit st o).state.file = st.file ∧
      (handleSubmit st o).state.selectedSections = st.selectedSections ∧
      (handleSubmit st o).navigatedTo = none) ∧
  (∀ (st : ResultsPageState) (w : String) (o : ResultsOutcome),
    resultsFetchFailed o →
      (resultsEffect st (some w) o).1.error.isSome = true ∧
      (resultsEffect st (some w) o).1.state = st.state) ∧
  (∀ (st : ResultsPageState) (w : String) (o : UploadOutcome) (ro : ResultsOutcome),
    st.selectedNewSections ≠ [] →
    (uploadFailed o ∨
      (∃ r, o = UploadOutcome.response r ∧ (r.ok && r.success) = true ∧ resultsFetchFailed ro)) →
      (handleAddSections st (some w) o ro).1.error.isSome = true ∧
      (handleAddSections st (some w) o ro).1.state = st.state ∧
      (handleAddSections st (some w) o ro).1.selectedNewSections = st.selectedNewSections ∧
      (handleAddSections st (some w) o ro).1.showAddSections = st.showAddSections) ∧
  (∀ (st : ResultsPageState) (w : String) (o : DocumentOutcome),
    st.isDownloading = false → documentFailed o →
      (downloadClick st (some w) o).alertMsg.isSome = true ∧
      (downloadClick st (some w) o).savedFile = none ∧
      (downloadClick st (some w) o).state.state = st.state ∧
      (downloadClick st (some w) o).state.selectedNewSections = st.selectedNewSections)

/-- Claim C4 read literally: each results-page load issues more than one GET
of `/api/results/...` over time (polling). -/
def claimC4Statement : Prop :=
  ∀ (st : ResultsPageState) (w : String) (o : ResultsOutcome),
    2 ≤ ((resultsEffect st (some w) o).2).length

/-! ## Rendered text nodes (`ResultsContent.tsx` section components), for C5.
Each displayed text node is tagged `md` when the component pipes it through
`marked.parse` (via `renderMarkdown` / `dangerouslySetInnerHTML`) and `plain`
when it is interpolated directly into JSX. -/

inductive Rendered
  | md (s : String)
  | plain (s : String)
deriving DecidableEq

/-- Embedding of the JS `key.replace(/_/g, ' ')`. -/
def replaceUnderscores (s : String) : String :=
  String.mk (s.data.map (fun c => if c = '_' then ' ' else c))

/-- Text nodes of `FirFactsSection`: keys are shown plain (underscores
replaced), values go through `marked.parse`. -/
def firFactsRendered (facts : List (String × String)) : List Rendered :=
  ((leftColumn facts).map (fun kv => [Rendered.plain (replaceUnderscores kv.1),
    Rendered.md kv.2])).flatten ++
  ((rightColumn facts).map (fun kv => [Rendered.plain (replaceUnderscores kv.1),
    Rendered.md kv.2])).flatten

/-- Text nodes of one card of `SectionsSection`. -/
def statuteRendered (sec : StatuteSection) : List Rendered :=
  [Rendered.plain ("Section " ++ sec.section_number),
    Rendered.md sec.section_description,
    Rendered.md sec.why_section_is_relevant] ++
  (match sec.source with
    | some u => if u.isEmpty then [] else [Rendered.plain u]
    | none => [])

def sectionsRendered (secs : List StatuteSection) : List Rendered :=
  ((leftColumn secs).map statuteRendered).flatten ++ ((rightColumn secs).map statuteRendered).flatten

/-- Text nodes of one card of `InvestigationPlanSection`: the 1-based number
recovered with `plan.indexOf(point)`, the title, the optional date range, and
the Markdown description. -/
def planItemRendered (plan : List PlanItem) (point : PlanItem) : List Rendered :=
  [Rendered.plain (toString (plan.indexOf point + 1)), Rendered.plain point.title] ++
  (match point.date_range with | some d => [Rendered.plain d] | none => []) ++
  [Rendered.md point.description]

def investigationPlanRendered (plan : List PlanItem) : List Rendered :=
  ((leftColumn plan).map (planItemRendered plan)).flatten ++
  ((rightColumn plan).map (planItemRendered plan)).flatten

def timelineRendered (t : TimelineInfo) : List Rendered :=
  (if t.date_string.isEmpty then [] else [Rendered.plain t.date_string]) ++
  [Rendered.md t.timeline]

def evidenceRendered (checklist : String) : List Rendered :=
  [Rendered.md checklist]

/-- Text nodes of `DosDontsSection`: each item is interpolated directly into
a `<span>`, with no `marked.parse`. -/
def dosDontsRendered (dos donts : List String) : List Rendered :=
  dos.map Rendered.plain ++ donts.map Rendered.plain

/-- Text nodes of `WeaknessesSection`: heading and details are both shown
plain, with no `marked.parse`. -/
def weaknessesRendered (weaknesses : List (String × String)) : List Rendered :=
  ((leftColumn weaknesses).map (fun kv => [Rendered.plain kv.1, Rendered.plain kv.2])).flatten ++
  ((rightColumn weaknesses).map (fun kv => [Rendered.plain kv.1, Rendered.plain kv.2])).flatten

def nextStepsRendered (steps : List String) : List Rendered :=
  (leftColumn steps).map Rendered.md ++ (rightColumn steps).map Rendered.md

def historicalCaseRendered (c : HistoricalCase) : List Rendered :=
  [Rendered.plain c.title, Rendered.md c.summary] ++
  (match c.url with
    | some u => if u.isEmpty then [] else [Rendered.plain "View Source"]
    | none => [])

def historicalCasesRendered (cases : List HistoricalCase) : List Rendered :=
  ((leftColumn cases).map historicalCaseRendered).flatten ++
  ((rightColumn cases).map historicalCaseRendered).flatten

def defenceRebuttalRendered (data : List DefencePair) : List Rendered :=
  (data.map (fun item =>
    item.defence_perspective.map Rendered.md ++ item.rebuttal.map Rendered.md)).flatten

def courtSummaryRendered (s : CourtSummary) : List Rendered :=
  [Rendered.plain s.case_title] ++
  (if s.ndps_sections.isEmpty then []
    else [Rendered.plain (String.intercalate ", " s.ndps_sections)]) ++
  [Rendered.md s.core_issue, Rendered.plain s.date_and_place,
    Rendered.md s.recovery, Rendered.md s.quantity] ++
  s.safeguards.map Rendered.plain ++
  s.conscious_possession_proven.map Rendered.md ++
  s.procedural_compliance.map Rendered.md ++
  s.legal_position.map Rendered.md ++
  [Rendered.md s.judicial_balance] ++
  s.prosecution_prayer.map Rendered.md

def chargesheetAllSections (c : Chargesheet) : List String :=
  (if c.ndps_sections.isEmpty then []
    else ["NDPS Act – " ++ String.intercalate ", " c.ndps_sections]) ++
  (if c.bns_sections.isEmpty then []
    else ["BNS – " ++ String.intercalate ", " c.bns_sections]) ++
  (if c.bnss_sections.isEmpty then []
    else ["BNSS – " ++ String.intercalate ", " c.bnss_sections]) ++
  (if c.bsa_sections.isEmpty then []
    else ["BSA – " ++ String.intercalate ", " c.bsa_sections])

def chargesheetRendered (c : Chargesheet) : List Rendered :=
  [Rendered.plain c.case_title] ++
  (chargesheetAllSections c).map Rendered.plain ++
  [Rendered.md c.core_issue, Rendered.plain c.date_and_place,
    Rendered.md c.recovery, Rendered.md c.quantity] ++
  c.safeguards.map Rendered.plain ++
  c.conscious_possession_proven.map Rendered.md ++
  c.procedural_compliance.map Rendered.md ++
  c.legal_position.map Rendered.md ++
  [Rendered.md c.judicial_balance] ++
  c.prosecution_prayer.map Rendered.md

/-! ## Per-field Markdown propositions, for C5. -/

def mdDos : Prop :=
  ∀ (dos donts : List String), ∀ x ∈ dos, Rendered.md x ∈ dosDontsRendered dos donts

def mdDonts : Prop :=
  ∀ (dos donts : List String), ∀ x ∈ donts, Rendered.md x ∈ dosDontsRendered dos donts

def mdWeakDetails : Prop :=
  ∀ (w : List (String × String)), ∀ kv ∈ w, Rendered.md kv.2 ∈ weaknessesRendered w

def plainDos : Prop :=
  ∀ (dos donts : List String), ∀ x ∈ dos, Rendered.plain x ∈ dosDontsRendered dos donts

def plainDonts : Prop :=
  ∀ (dos donts : List String), ∀ x ∈ donts, Rendered.plain x ∈ dosDontsRendered dos donts

def plainWeakDetails : Prop :=
  ∀ (w : List (String × String)), ∀ kv ∈ w, Rendered.plain kv.2 ∈ weaknessesRendered w

def mdFirFacts : Prop :=
  ∀ (facts : List (String × String)), ∀ kv ∈ facts, Rendered.md kv.2 ∈ firFactsRendered facts

def mdStatutes : Prop :=
  ∀ (secs : List StatuteSection), ∀ sec ∈ secs,
    Rendered.md sec.section_description ∈ sectionsRendered secs ∧
    Rendered.md sec.why_section_is_relevant ∈ sectionsRendered secs

def mdPlan : Prop :=
  ∀ (plan : List PlanItem), ∀ p ∈ plan, Rendered.md p.description ∈ investigationPlanRendered plan

def mdTimeline : Prop :=
  ∀ t : TimelineInfo, Rendered.md t.timeline ∈ timelineRendered t

def mdEvidence : Prop :=
  ∀ checklist : String, Rendered.md checklist ∈ evidenceRendered checklist

def mdNextSteps : Prop :=
  ∀ (steps : List String), ∀ x ∈ steps, Rendered.md x ∈ nextStepsRendered steps

def mdHistorical : Prop :=
  ∀ (cases : List HistoricalCase), ∀ c ∈ cases, Rendered.md c.summary ∈ historicalCasesRendered cases

def mdDefence : Prop :=
  ∀ (data : List DefencePair), ∀ item ∈ data,
    (∀ p ∈ item.defence_perspective, Rendered.md p ∈ defenceRebuttalRendered data) ∧
    (∀ p ∈ item.rebuttal, Rendered.md p ∈ defenceRebuttalRendered data)

def mdCourtSummary : Prop :=
  ∀ s : CourtSummary,
    Rendered.md s.core_issue ∈ courtSummaryRendered s ∧
    Rendered.md s.recovery ∈ courtSummaryRendered s ∧
    Rendered.md s.quantity ∈ courtSummaryRendered s ∧
    Rendered.md s.judicial_balance ∈ courtSummaryRendered s ∧
    (∀ p ∈ s.conscious_possession_proven, Rendered.md p ∈ courtSummaryRendered s) ∧
    (∀ p ∈ s.procedural_compliance, Rendered.md p ∈ courtSummaryRendered s) ∧
    (∀ p ∈ s.legal_position, Rendered.md p ∈ courtSummaryRendered s) ∧
    (∀ p ∈ s.prosecution_prayer, Rendered.md p ∈ courtSummaryRendered s)

def mdChargesheet : Prop :=
  ∀ c : Chargesheet,
    Rendered.md c.core_issue ∈ chargesheetRendered c ∧
    Rendered.md c.recovery ∈ chargesheetRendered c ∧
    Rendered.md c.quantity ∈ chargesheetRendered c ∧
    Rendered.md c.judicial_balance ∈ chargesheetRendered c ∧
    (∀ p ∈ c.conscious_possession_proven, Rendered.md p ∈ chargesheetRendered c) ∧
    (∀ p ∈ c.procedural_compliance, Rendered.md p ∈ chargesheetRendered c) ∧
    (∀ p ∈ c.legal_position, Rendered.md p ∈ chargesheetRendered c) ∧
    (∀ p ∈ c.prosecution_prayer, Rendered.md p ∈ chargesheetRendered c)

/-- Claim C5 read literally: every displayed free-text field of the workflow
state, including each do and each dont item and each prosecution-weakness
detail, is converted from Markdown before display. -/
def claimC5Statement : Prop :=
  mdDos ∧ mdDonts ∧ mdWeakDetails ∧ mdFirFacts ∧ mdStatutes ∧ mdPlan ∧ mdTimeline ∧
    mdEvidence ∧ mdNextSteps ∧ mdHistorical ∧ mdDefence ∧ mdCourtSummary ∧ mdChargesheet

/-! ## The numbered two-column renderer, for C10.  Of the two components
that compute `originalIdx = list.indexOf(item)`, only
`InvestigationPlanSection` displays `{originalIdx + 1}` next to each card;
`NextStepsSection` computes the same index but uses it solely as the React
`key` and renders no number.  `leftNumbered`/`rightNumbered` pair each plan
item of a column with the number the plan renderer displays for it. -/

def leftNumbered (plan : List PlanItem) : List (Nat × PlanItem) :=
  (leftColumn plan).map (fun p => (plan.indexOf p + 1, p))

def rightNumbered (plan : List PlanItem) : List (Nat × PlanItem) :=
  (rightColumn plan).map (fun p => (plan.indexOf p + 1, p))

/-- Claim C10 read literally: both numbered two-column renderers — the
investigation plan and the next-steps list — display `indexOf + 1` next to
each item.  For the plan this is the number badge of
`InvestigationPlanSection`; for the next steps it asserts such a number
among the rendered text nodes of `NextStepsSection`. -/
def claimC10Statement : Prop :=
  (∀ (plan : List PlanItem), ∀ p ∈ plan,
    Rendered.plain (toString (plan.indexOf p + 1)) ∈ investigationPlanRendered plan) ∧
  (∀ (steps : List String), ∀ x ∈ steps,
    Rendered.plain (toString (steps.indexOf x + 1)) ∈ nextStepsRendered steps)

end FIRLA

namespace FIRLA

theorem evens_cons (x : α) (xs : List α) : evens (x :: xs) = x :: odds xs := rfl

theorem odds_cons (x : α) (xs : List α) : odds (x :: xs) = evens xs := rfl

theorem interleave_nil (ys : List α) : interleave [] ys = ys := by
  simp [interleave]

theorem interleave_cons (x : α) (xs ys : List α) :
    interleave (x :: xs) ys = x :: interleave ys xs := by
  simp [interleave]

theorem interleave_evens_odds (l : List α) : interleave (evens l) (odds l) = l := by
  induction l with
  | nil => simp [evens, odds, interleave]
  | cons x xs ih => rw [evens_cons, odds_cons, interleave_cons, ih]

theorem count_interleave_le [DecidableEq α] (a : α) :
    ∀ (n : Nat) (xs ys : List α), xs.length + ys.length ≤ n →
      (interleave xs ys).count a = xs.count a + ys.count a := by
  intro n
  induction n with
  | zero =>
    intro xs ys h
    cases xs with
    | nil => simp [interleave_nil]
    | cons x xs => simp at h
  | succ n ih =>
    intro xs ys h
    cases xs with
    | nil => simp [interleave_nil]
    | cons x xs =>
      rw [interleave_cons]
      rw [List.count_cons, List.count_cons]
      rw [ih ys xs (by simp only [List.length_cons] at h; omega)]
      omega

theorem count_interleave [DecidableEq α] (a : α) (xs ys : List α) :
    (interleave xs ys).count a = xs.count a + ys.count a :=
  count_interleave_le a (xs.length + ys.length) xs ys le_rfl

theorem filterIdxFrom_parity (l : List α) :
    ∀ n : Nat,
      (n % 2 = 0 →
        filterIdxFrom (fun i => i % 2 == 0) n l = evens l ∧
        filterIdxFrom (fun i => i % 2 == 1) n l = odds l) ∧
      (n % 2 = 1 →
        filterIdxFrom (fun i => i % 2 == 0) n l = odds l ∧
        filterIdxFrom (fun i => i % 2 == 1) n l = evens l) := by
  induction l with
  | nil =>
    intro n
    constructor <;> intro _ <;> simp [filterIdxFrom, evens, odds]
  | cons x xs ih =>
    intro n
    constructor
    · intro h
      have h1 : (n + 1) % 2 = 1 := by omega
      constructor
      · have he : (n % 2 == 0) = true := by simp [h]
        simp only [filterIdxFrom, he, if_true, evens_cons]
        rw [((ih (n + 1)).2 h1).1]
      · simp only [filterIdxFrom]
        rw [if_neg (by simp [h]), ((ih (n + 1)).2 h1).2, odds_cons]
    · intro h
      have h0 : (n + 1) % 2 = 0 := by omega
      constructor
      · simp only [filterIdxFrom]
        rw [if_neg (by simp [h]), ((ih (n + 1)).1 h0).1, odds_cons]
      · have ho : (n % 2 == 1) = true := by simp [h]
        simp only [filterIdxFrom, ho, if_true, evens_cons]
        rw [((ih (n + 1)).1 h0).2]

theorem leftColumn_eq_evens (l : List α) : leftColumn l = evens l :=
  ((filterIdxFrom_parity l 0).1 (by omega)).1

theorem rightColumn_eq_odds (l : List α) : rightColumn l = odds l :=
  ((filterIdxFrom_parity l 0).1 (by omega)).2

theorem evens_odds_getElem? (l : List α) :
    (∀ i, (evens l)[i]? = l[2 * i]?) ∧ (∀ i, (odds l)[i]? = l[2 * i + 1]?) := by
  induction l with
  | nil => constructor <;> intro i <;> simp [evens, odds]
  | cons x xs ih =>
    constructor
    · intro i
      cases i with
      | zero => simp [evens_cons]
      | succ j =>
        rw [evens_cons]
        have h2 : 2 * (j + 1) = (2 * j + 1) + 1 := by omega
        rw [h2, List.getElem?_cons_succ, List.getElem?_cons_succ, ih.2 j]
    · intro i
      rw [odds_cons]
      have h2 : 2 * i + 1 = (2 * i) + 1 := by omega
      rw [h2, List.getElem?_cons_succ, ih.1 i]

theorem interleave_leftColumn_rightColumn (l : List α) :
    interleave (leftColumn l) (rightColumn l) = l := by
  rw [leftColumn_eq_evens, rightColumn_eq_odds, interleave_evens_odds]

theorem mem_interleave [DecidableEq α] {a : α} {xs ys : List α} :
    a ∈ interleave xs ys ↔ a ∈ xs ∨ a ∈ ys := by
  rw [← List.count_pos_iff, ← List.count_pos_iff, ← List.count_pos_iff,
    count_interleave]
  omega

theorem mem_leftColumn_or_rightColumn [DecidableEq α] {l : List α} {x : α} (h : x ∈ l) :
    x ∈ leftColumn l ∨ x ∈ rightColumn l := by
  have h2 : x ∈ interleave (leftColumn l) (rightColumn l) := by
    rw [interleave_leftColumn_rightColumn]
    exact h
  exact mem_interleave.mp h2

/-- C3: the two-column layout is a lossless interleaving.  The left column is
exactly the elements at even 0-based indices in original order and the right
column exactly the elements at odd 0-based indices; interleaving the two
columns (left first) reconstructs the original list; and each element occurs
in the columns exactly as often as in the input. -/
theorem two_column_partition {α : Type} [DecidableEq α] (l : List α) :
    (∀ i, (leftColumn l)[i]? = l[2 * i]?) ∧
    (∀ i, (rightColumn l)[i]? = l[2 * i + 1]?) ∧
    interleave (leftColumn l) (rightColumn l) = l ∧
    (∀ a : α, l.count a = (leftColumn l).count a + (rightColumn l).count a) := by
  refine ⟨?_, ?_, interleave_leftColumn_rightColumn l, ?_⟩
  · intro i
    rw [leftColumn_eq_evens]
    exact (evens_odds_getElem? l).1 i
  · intro i
    rw [rightColumn_eq_odds]
    exact (evens_odds_getElem? l).2 i
  · intro a
    conv_lhs => rw [← interleave_leftColumn_rightColumn l]
    rw [count_interleave]

theorem tabKeep_eq_cond_and_gate (sel : Option (List String)) (i : String) (c : Bool)
    (sid : Option String) (hne : (i == "fir-facts") = false) :
    tabKeep sel ⟨i, c, sid⟩ = (c && selGate sel sid) := by
  unfold tabKeep selGate
  simp only [hne, Bool.false_eq_true, if_false]
  cases c with
  | false => simp
  | true =>
    cases sel with
    | none => simp
    | some l =>
      by_cases hl : l.isEmpty
      · simp [hl]
      · simp only [hl, Bool.not_true, Bool.false_eq_true, if_false, Bool.true_and, if_neg]
        cases sid with
        | none => simp [hl]
        | some s => simp [hl, Option.getD]

/-- C1 (amended): the rendered tab list equals, id for id and in the fixed
order of `allTabs`, the tabs whose corrected data condition and selection
gate hold — the correction being that the evidence tab needs its checklist
string present and non-empty, where the claim only asked for presence. -/
theorem tab_rendering_amended (s : WorkflowState) (sel : Option (List String)) :
    (renderTabs s sel).map Tab.id = amendedRenderedIds s sel ∧
    ((renderTabs s sel).map Tab.id).Sublist ((allTabs s).map Tab.id) := by
  constructor
  · unfold renderTabs amendedRenderedIds
    have h : ∀ tab ∈ allTabs s, tabKeep sel tab =
        (if tab.id == "fir-facts" then s.fir_facts.isSome
          else amendDataCond s tab.id && selGate sel tab.sectionId) := by
      intro tab htab
      simp only [allTabs, List.mem_cons, List.not_mem_nil, or_false] at htab
      rcases htab with rfl | rfl | rfl | rfl | rfl | rfl | rfl | rfl | rfl | rfl | rfl | rfl |
        rfl | rfl | rfl
      · rfl
      all_goals rw [tabKeep_eq_cond_and_gate _ _ _ _ (by decide)]
      all_goals rfl
    rw [List.filter_congr h]
  · exact List.Sublist.map Tab.id (List.filter_sublist _)

/-- C1 (counterexample): with a workflow state whose `evidence_checklist` is
present but the empty string and no selection list, the code renders no tabs
while the claim, read literally, predicts the evidence tab. -/
theorem tab_rendering_claim_counterexample : ¬ claimC1Statement := by
  intro h
  have h0 := h { emptyWs with evidence_checklist := some "" } none
  revert h0
  decide

/-- C4 (counterexample): a page load issues exactly one GET of
`/api/results/...`, so the claim that it repeatedly polls (more than one
request per load) is false. -/
theorem results_polling_claim_counterexample : ¬ claimC4Statement := by
  intro h
  have h0 := h ⟨none, true, none, false, [], false, false⟩ "w" (ResultsOutcome.thrownMsg "m")
  revert h0
  decide

/-- C4 (amended): for every workflow id present in the route, the results
page issues exactly one GET of `/api/results/...` per page load (the effect
re-runs only when the workflow id changes); it does not poll. -/
theorem results_fetch_once (st : ResultsPageState) (w : String) (o : ResultsOutcome) :
    (resultsEffect st (some w) o).2 = [getRequest ("/api/results/" ++ w)] := by
  cases o with
  | thrownMsg m => rfl
  | response ok data => cases ok <;> rfl

/-- C2: with a selected file and a non-empty section selection, `handleSubmit`
sends exactly one POST of the file and the JSON-encoded selection to
`/upload`; on an ok response whose body has `success` true it navigates to
`/results/` followed by the returned workflow id; otherwise it sets the error
string to the response detail (or the fallback) and stops uploading; and if
the fetch throws it sets the network-error string and does not navigate. -/
theorem upload_contract (st : UploadPageState) (f : JsFile) (o : UploadOutcome)
    (hf : st.file = some f) (hs : st.selectedSections ≠ []) :
    (handleSubmit st o).requests =
      [uploadRequest (some f) (jsonEncodeStringList st.selectedSections) none] ∧
    (∀ r, o = UploadOutcome.response r → (r.ok && r.success) = true →
      (handleSubmit st o).navigatedTo = some ("/results/" ++ r.workflow_id)) ∧
    (∀ r, o = UploadOutcome.response r → (r.ok && r.success) = false →
      (handleSubmit st o).navigatedTo = none ∧
      (handleSubmit st o).state.error =
        some (jsOrString r.detail "Error processing PDF. Please try again.") ∧
      (handleSubmit st o).state.isUploading = false) ∧
    (o = UploadOutcome.thrown →
      (handleSubmit st o).navigatedTo = none ∧
      (handleSubmit st o).state.error =
        some "Network error. Please check your connection and try again." ∧
      (handleSubmit st o).state.isUploading = false) := by
  have hemp : st.selectedSections.isEmpty = false := by
    rcases hl : st.selectedSections with _ | ⟨a, l⟩
    · exact absurd hl hs
    · rfl
  cases o with
  | thrown => simp [handleSubmit, hf, hemp]
  | response r =>
    rcases hok : r.ok && r.success with _ | _
    all_goals simp [handleSubmit, hf, hemp, hok]
    · intro h1
      cases hsu : r.success
      · rfl
      · rw [h1, hsu] at hok
        simp at hok
    · simp only [Bool.and_eq_true] at hok
      exact hok

/-- Witness for C2 at a concrete successful upload. -/
theorem upload_contract_witness :
    (handleSubmit ⟨some ⟨"f.pdf", "application/pdf", 5⟩, ["ndps"], false, none⟩
        (UploadOutcome.response ⟨true, true, "w77", none⟩)).requests =
      [uploadRequest (some ⟨"f.pdf", "application/pdf", 5⟩)
        (jsonEncodeStringList ["ndps"]) none] ∧
    (handleSubmit ⟨some ⟨"f.pdf", "application/pdf", 5⟩, ["ndps"], false, none⟩
        (UploadOutcome.response ⟨true, true, "w77", none⟩)).navigatedTo =
      some ("/results/" ++ "w77") := by
  have h := upload_contract ⟨some ⟨"f.pdf", "application/pdf", 5⟩, ["ndps"], false, none⟩
    ⟨"f.pdf", "application/pdf", 5⟩ (UploadOutcome.response ⟨true, true, "w77", none⟩)
    rfl (by decide)
  exact ⟨h.1, h.2.1 ⟨true, true, "w77", none⟩ rfl rfl⟩

/-- C9: invoking `handleSubmit` with a file selected but an empty section
list sends no request, sets the specific error string, and leaves
`isUploading` stuck at `true`; the submit button's `disabled` condition is
nevertheless `true` in such a state, making the path unreachable through the
rendered form. -/
theorem submit_empty_sections (st : UploadPageState) (f : JsFile) (o : UploadOutcome)
    (hf : st.file = some f) (hs : st.selectedSections = []) :
    (handleSubmit st o).requests = [] ∧
    (handleSubmit st o).state.error = some "Please select at least one section to analyze" ∧
    (handleSubmit st o).state.isUploading = true ∧
    (handleSubmit st o).navigatedTo = none ∧
    submitDisabled st = true := by
  simp [handleSubmit, hf, hs, submitDisabled]

/-- Witness for C9 at a concrete state. -/
theorem submit_empty_sections_witness :
    (handleSubmit ⟨some ⟨"f.pdf", "application/pdf", 5⟩, [], false, none⟩
        UploadOutcome.thrown).requests = [] ∧
    (handleSubmit ⟨some ⟨"f.pdf", "application/pdf", 5⟩, [], false, none⟩
        UploadOutcome.thrown).state.error =
      some "Please select at least one section to analyze" ∧
    (handleSubmit ⟨some ⟨"f.pdf", "application/pdf", 5⟩, [], false, none⟩
        UploadOutcome.thrown).state.isUploading = true ∧
    (handleSubmit ⟨some ⟨"f.pdf", "application/pdf", 5⟩, [], false, none⟩
        UploadOutcome.thrown).navigatedTo = none ∧
    submitDisabled ⟨some ⟨"f.pdf", "application/pdf", 5⟩, [], false, none⟩ = true :=
  submit_empty_sections ⟨some ⟨"f.pdf", "application/pdf", 5⟩, [], false, none⟩
    ⟨"f.pdf", "application/pdf", 5⟩ UploadOutcome.thrown rfl rfl

/-- C8: the file-picker path accepts a chosen file iff it is a PDF of at most
10 MiB, setting a specific error string otherwise, while the drag-and-drop
path accepts any PDF with no size check — so a PDF over the limit is rejected
via the picker but accepted via drop. -/
theorem file_validation (st : UploadPageState) (f : JsFile) :
    (((handleFileSelect st (some f)).file = some f ∧
        (handleFileSelect st (some f)).error = none) ↔
      (f.type = "application/pdf" ∧ f.size ≤ 10 * 1024 * 1024)) ∧
    (f.type ≠ "application/pdf" →
      handleFileSelect st (some f) = { st with error := some "Please select a PDF file" }) ∧
    (f.type = "application/pdf" → f.size > 10 * 1024 * 1024 →
      handleFileSelect st (some f) = { st with error := some "File size exceeds 10MB limit" }) ∧
    (f.type = "application/pdf" →
      handleDrop st (some f) = { st with file := some f, error := none }) ∧
    (f.type ≠ "application/pdf" →
      handleDrop st (some f) = { st with error := some "Please drop a PDF file" }) ∧
    (∃ g : JsFile, g.type = "application/pdf" ∧ g.size > 10 * 1024 * 1024 ∧
      (handleFileSelect st (some g)).file = st.file ∧
      (handleFileSelect st (some g)).error = some "File size exceeds 10MB limit" ∧
      (handleDrop st (some g)).file = some g ∧
      (handleDrop st (some g)).error = none) := by
  refine ⟨?_, ?_, ?_, ?_, ?_, ?_⟩
  · by_cases ht : f.type = "application/pdf"
    · by_cases hsz : f.size ≤ 10 * 1024 * 1024
      · simp [handleFileSelect, ht, hsz, Nat.not_lt.mpr hsz]
      · simp only [handleFileSelect, ht]
        simp [Nat.lt_of_not_le hsz, Nat.not_le.mp hsz, hsz]
    · simp [handleFileSelect, ht]
  · intro ht
    simp [handleFileSelect, ht]
  · intro ht hsz
    simp [handleFileSelect, ht, hsz]
  · intro ht
    simp [handleDrop, ht]
  · intro ht
    simp [handleDrop, ht]
  · refine ⟨⟨"big.pdf", "application/pdf", 10 * 1024 * 1024 + 1⟩, rfl,
      by show 10 * 1024 * 1024 + 1 > 10 * 1024 * 1024; omega, ?_, ?_, ?_, ?_⟩
    · simp [handleFileSelect]
    · simp [handleFileSelect]
    · simp [handleDrop]
    · simp [handleDrop]

/-- Witness for C8 at a concrete oversized PDF. -/
theorem file_validation_witness :
    (handleFileSelect ⟨none, [], false, none⟩
        (some ⟨"big.pdf", "application/pdf", 10 * 1024 * 1024 + 1⟩)).error =
      some "File size exceeds 10MB limit" ∧
    (handleDrop ⟨none, [], false, none⟩
        (some ⟨"big.pdf", "application/pdf", 10 * 1024 * 1024 + 1⟩)).file =
      some ⟨"big.pdf", "application/pdf", 10 * 1024 * 1024 + 1⟩ := by
  have h := file_validation ⟨none, [], false, none⟩
    ⟨"big.pdf", "application/pdf", 10 * 1024 * 1024 + 1⟩
  refine ⟨?_, ?_⟩
  · exact congrArg UploadPageState.error
      (h.2.2.1 rfl (by show 10 * 1024 * 1024 + 1 > 10 * 1024 * 1024; omega))
  · exact congrArg UploadPageState.file (h.2.2.2.1 rfl)

/-- C7: with a workflow id and no download in progress, the Generate
Document click issues exactly one GET of `/api/document/...`; an ok response
is saved as `FIR_Report_` followed by the workflow id and `.docx`; a non-ok
response or a thrown fetch saves nothing; `isDownloading` ends up `false`
afterwards; and a click made while `isDownloading` is `true` performs no
request at all. -/
theorem document_download (st : ResultsPageState) (w : String) (o : DocumentOutcome)
    (hd : st.isDownloading = false) :
    (downloadClick st (some w) o).requests = [getRequest ("/api/document/" ++ w)] ∧
    (∀ ok blob, o = DocumentOutcome.response ok blob → ok = true →
      (downloadClick st (some w) o).savedFile =
        some ("FIR_Report_" ++ w ++ ".docx", blob)) ∧
    (∀ ok blob, o = DocumentOutcome.response ok blob → ok = false →
      (downloadClick st (some w) o).savedFile = none) ∧
    (o = DocumentOutcome.thrown → (downloadClick st (some w) o).savedFile = none) ∧
    (downloadClick st (some w) o).state.isDownloading = false ∧
    (∀ (st2 : ResultsPageState) (o2 : DocumentOutcome), st2.isDownloading = true →
      downloadClick st2 (some w) o2 = ⟨st2, [], none, none⟩) := by
  have busy : ∀ (st2 : ResultsPageState) (o2 : DocumentOutcome), st2.isDownloading = true →
      downloadClick st2 (some w) o2 = ⟨st2, [], none, none⟩ := by
    intro st2 o2 h2
    simp [downloadClick, h2]
  cases o with
  | thrown => exact ⟨by simp [downloadClick, hd], by simp, by simp, by simp [downloadClick, hd],
      by simp [downloadClick, hd], busy⟩
  | response ok blob =>
    cases ok with
    | true =>
      refine ⟨by simp [downloadClick, hd], ?_, ?_, by simp, by simp [downloadClick, hd], busy⟩
      · intro ok2 blob2 heq _
        cases heq
        simp [downloadClick, hd]
      · intro ok2 blob2 heq h2
        cases heq
        simp at h2
    | false =>
      refine ⟨by simp [downloadClick, hd], ?_, ?_, by simp, by simp [downloadClick, hd], busy⟩
      · intro ok2 blob2 heq h2
        cases heq
        simp at h2
      · intro ok2 blob2 heq _
        cases heq
        simp [downloadClick, hd]

/-- Witness for C7 at a concrete successful download. -/
theorem document_download_witness :
    (downloadClick ⟨none, false, none, false, [], false, false⟩ (some "w9")
        (DocumentOutcome.response true [1, 2])).requests =
      [getRequest ("/api/document/" ++ "w9")] ∧
    (downloadClick ⟨none, false, none, false, [], false, false⟩ (some "w9")
        (DocumentOutcome.response true [1, 2])).savedFile =
      some ("FIR_Report_" ++ "w9" ++ ".docx", [1, 2]) ∧
    downloadClick ⟨none, false, none, false, [], false, true⟩ (some "w9")
        DocumentOutcome.thrown =
      ⟨⟨none, false, none, false, [], false, true⟩, [], none, none⟩ := by
  have h := document_download ⟨none, false, none, false, [], false, false⟩ "w9"
    (DocumentOutcome.response true [1, 2]) rfl
  exact ⟨h.1, h.2.1 true [1, 2] rfl rfl,
    h.2.2.2.2.2 ⟨none, false, none, false, [], false, true⟩ DocumentOutcome.thrown rfl⟩

/-- C6 (counterexample): in `handleAddSections`, when the `/upload` POST
succeeds but the follow-up results re-fetch returns a non-ok response, the
failing GET sets no error string at all, refuting the claim that every
failing HTTP operation sets an error string. -/
theorem error_handling_claim_counterexample : ¬ claimC6Statement := by
  intro h
  have h3 := h.2.2.1 ⟨none, false, none, true, ["ndps"], false, false⟩ "w"
    (UploadOutcome.response ⟨true, true, "w", none⟩) (ResultsOutcome.response false emptyWs)
    (by decide)
    (Or.inr ⟨⟨true, true, "w", none⟩, rfl, by decide, Or.inr ⟨emptyWs, rfl⟩⟩)
  exact absurd h3.1 (by decide)

/-- C6 (amended): failing HTTP operations only surface an error message —
the upload and results paths through the `error` state, the download path
through an alert — and leave the selected file, the section selections and
the loaded workflow state unchanged; except that in `handleAddSections` a
non-ok results re-fetch after a successful upload is silent: it sets no error
and changes no state either. -/
theorem error_handling_amended :
    (∀ (st : UploadPageState) (f : JsFile), st.file = some f → st.selectedSections ≠ [] →
      ((handleSubmit st UploadOutcome.thrown).state.error =
          some "Network error. Please check your connection and try again." ∧
        (handleSubmit st UploadOutcome.thrown).state.file = st.file ∧
        (handleSubmit st UploadOutcome.thrown).state.selectedSections = st.selectedSections ∧
        (handleSubmit st UploadOutcome.thrown).navigatedTo = none) ∧
      (∀ r : UploadResponse, (r.ok && r.success) = false →
        (handleSubmit st (UploadOutcome.response r)).state.error =
            some (jsOrString r.detail "Error processing PDF. Please try again.") ∧
          (handleSubmit st (UploadOutcome.response r)).state.file = st.file ∧
          (handleSubmit st (UploadOutcome.response r)).state.selectedSections =
            st.selectedSections ∧
          (handleSubmit st (UploadOutcome.response r)).navigatedTo = none)) ∧
    (∀ (st : ResultsPageState) (w : String),
      (∀ m, (resultsEffect st (some w) (ResultsOutcome.thrownMsg m)).1.error = some m ∧
        (resultsEffect st (some w) (ResultsOutcome.thrownMsg m)).1.state = st.state) ∧
      (∀ d, (resultsEffect st (some w) (ResultsOutcome.response false d)).1.error =
          some "Failed to fetch results" ∧
        (resultsEffect st (some w) (ResultsOutcome.response false d)).1.state = st.state)) ∧
    (∀ (st : ResultsPageState) (w : String), st.selectedNewSections ≠ [] →
      (∀ ro, (handleAddSections st (some w) UploadOutcome.thrown ro).1.error =
          some "Network error. Please check your connection and try again." ∧
        (handleAddSections st (some w) UploadOutcome.thrown ro).1.state = st.state ∧
        (handleAddSections st (some w) UploadOutcome.thrown ro).1.selectedNewSections =
          st.selectedNewSections ∧
        (handleAddSections st (some w) UploadOutcome.thrown ro).1.showAddSections =
          st.showAddSections) ∧
      (∀ (r : UploadResponse) ro, (r.ok && r.success) = false →
        (handleAddSections st (some w) (UploadOutcome.response r) ro).1.error =
            some (jsOrString r.detail "Error generating additional sections") ∧
          (handleAddSections st (some w) (UploadOutcome.response r) ro).1.state = st.state ∧
          (handleAddSections st (some w) (UploadOutcome.response r) ro).1.selectedNewSections =
            st.selectedNewSections ∧
          (handleAddSections st (some w) (UploadOutcome.response r) ro).1.showAddSections =
            st.showAddSections) ∧
      (∀ (r : UploadResponse) m, (r.ok && r.success) = true →
        (handleAddSections st (some w) (UploadOutcome.response r)
            (ResultsOutcome.thrownMsg m)).1.error =
          some "Network error. Please check your connection and try again." ∧
        (handleAddSections st (some w) (UploadOutcome.response r)
            (ResultsOutcome.thrownMsg m)).1.state = st.state ∧
        (handleAddSections st (some w) (UploadOutcome.response r)
            (ResultsOutcome.thrownMsg m)).1.selectedNewSections = st.selectedNewSections ∧
        (handleAddSections st (some w) (UploadOutcome.response r)
            (ResultsOutcome.thrownMsg m)).1.showAddSections = st.showAddSections) ∧
      (∀ (r : UploadResponse) d, (r.ok && r.success) = true →
        (handleAddSections st (some w) (UploadOutcome.response r)
            (ResultsOutcome.response false d)).1.error = none ∧
        (handleAddSections st (some w) (UploadOutcome.response r)
            (ResultsOutcome.response false d)).1.state = st.state ∧
        (handleAddSections st (some w) (UploadOutcome.response r)
            (ResultsOutcome.response false d)).1.selectedNewSections =
          st.selectedNewSections ∧
        (handleAddSections st (some w) (UploadOutcome.response r)
            (ResultsOutcome.response false d)).1.showAddSections = st.showAddSections)) ∧
    (∀ (st : ResultsPageState) (w : String) (o : DocumentOutcome),
      st.isDownloading = false → documentFailed o →
        (downloadClick st (some w) o).alertMsg =
            some "Failed to generate document. Please try again." ∧
          (downloadClick st (some w) o).savedFile = none ∧
          (downloadClick st (some w) o).state.state = st.state ∧
          (downloadClick st (some w) o).state.error = st.error ∧
          (downloadClick st (some w) o).state.selectedNewSections = st.selectedNewSections ∧
          (downloadClick st (some w) o).state.showAddSections = st.showAddSections) := by
  refine ⟨?_, ?_, ?_, ?_⟩
  · intro st f hf hs
    have hemp : st.selectedSections.isEmpty = false := by
      rcases hl : st.selectedSections with _ | ⟨a, l⟩
      · exact absurd hl hs
      · rfl
    constructor
    · simp [handleSubmit, hf, hemp]
    · intro r hok
      simp [handleSubmit, hf, hemp, hok]
  · intro st w
    constructor
    · intro m
      simp [resultsEffect]
    · intro d
      simp [resultsEffect]
  · intro st w hs
    have hemp : st.selectedNewSections.isEmpty = false := by
      rcases hl : st.selectedNewSections with _ | ⟨a, l⟩
      · exact absurd hl hs
      · rfl
    refine ⟨?_, ?_, ?_, ?_⟩
    · intro ro
      simp [handleAddSections, hemp]
    · intro r ro hok
      simp [handleAddSections, hemp, hok]
    · intro r m hok
      simp [handleAddSections, hemp, hok]
    · intro r d hok
      simp [handleAddSections, hemp, hok]
  · intro st w o hd hfail
    rcases hfail with rfl | ⟨blob, rfl⟩
    · simp [downloadClick, hd]
    · simp [downloadClick, hd]

/-- Witness for C6 at concrete failing operations, including the silent
refresh path. -/
theorem error_handling_amended_witness :
    (handleSubmit ⟨some ⟨"f.pdf", "application/pdf", 5⟩, ["ndps"], false, none⟩
        UploadOutcome.thrown).state.error =
      some "Network error. Please check your connection and try again." ∧
    (resultsEffect ⟨none, true, none, false, [], false, false⟩ (some "w")
        (ResultsOutcome.response false emptyWs)).1.error = some "Failed to fetch results" ∧
    (handleAddSections ⟨none, false, none, true, ["ndps"], false, false⟩ (some "w")
        (UploadOutcome.response ⟨true, true, "w", none⟩)
        (ResultsOutcome.response false emptyWs)).1.error = none ∧
    (downloadClick ⟨none, false, none, false, [], false, false⟩ (some "w")
        DocumentOutcome.thrown).alertMsg =
      some "Failed to generate document. Please try again." := by
  have h := error_handling_amended
  refine ⟨?_, ?_, ?_, ?_⟩
  · exact ((h.1 ⟨some ⟨"f.pdf", "application/pdf", 5⟩, ["ndps"], false, none⟩
      ⟨"f.pdf", "application/pdf", 5⟩ rfl (by decide)).1).1
  · exact ((h.2.1 ⟨none, true, none, false, [], false, false⟩ "w").2 emptyWs).1
  · exact ((h.2.2.1 ⟨none, false, none, true, ["ndps"], false, false⟩ "w"
      (by decide)).2.2.2 ⟨true, true, "w", none⟩ emptyWs rfl).1
  · exact (h.2.2.2 ⟨none, false, none, false, [], false, false⟩ "w"
      DocumentOutcome.thrown rfl (Or.inl rfl)).1

theorem mem_flatten_columns [DecidableEq α] {β : Type} (f : α → List β) {l : List α} {x : α}
    (hx : x ∈ l) {b : β} (hb : b ∈ f x) :
    b ∈ ((leftColumn l).map f).flatten ++ ((rightColumn l).map f).flatten := by
  rcases mem_leftColumn_or_rightColumn hx with h | h
  · exact List.mem_append_left _ (List.mem_flatten.mpr ⟨f x, List.mem_map_of_mem f h, hb⟩)
  · exact List.mem_append_right _ (List.mem_flatten.mpr ⟨f x, List.mem_map_of_mem f h, hb⟩)

theorem mem_map_columns [DecidableEq α] {β : Type} (f : α → β) {l : List α} {x : α}
    (hx : x ∈ l) :
    f x ∈ (leftColumn l).map f ++ (rightColumn l).map f := by
  rcases mem_leftColumn_or_rightColumn hx with h | h
  · exact List.mem_append_left _ (List.mem_map_of_mem f h)
  · exact List.mem_append_right _ (List.mem_map_of_mem f h)

/-- C5 (counterexample): a do item is rendered as plain text, not through
`marked.parse`, refuting the claim that every displayed free-text field is
converted from Markdown (its list explicitly includes each do and dont item
and each prosecution-weakness detail). -/
theorem markdown_claim_counterexample : ¬ claimC5Statement := by
  intro h
  have hd := h.1 ["x"] [] "x" (by decide)
  exact absurd hd (by decide)

/-- C5 (amended): the value of every fir-fact, statute description and
relevance, plan description, the timeline text, the evidence checklist, next
steps, historical case summaries, defence and rebuttal points, and the court
summary and chargesheet prose fields all go through `marked.parse`; the do
and dont items and the prosecution-weakness details are instead rendered as
plain text. -/
theorem markdown_amended :
    mdFirFacts ∧ mdStatutes ∧ mdPlan ∧ mdTimeline ∧ mdEvidence ∧ mdNextSteps ∧
    mdHistorical ∧ mdDefence ∧ mdCourtSummary ∧ mdChargesheet ∧
    plainDos ∧ plainDonts ∧ plainWeakDetails := by
  refine ⟨?_, ?_, ?_, ?_, ?_, ?_, ?_, ?_, ?_, ?_, ?_, ?_, ?_⟩
  · intro facts kv hkv
    exact mem_flatten_columns _ hkv (by simp)
  · intro secs sec hsec
    constructor
    · exact mem_flatten_columns statuteRendered hsec (by simp [statuteRendered])
    · exact mem_flatten_columns statuteRendered hsec (by simp [statuteRendered])
  · intro plan p hp
    refine mem_flatten_columns (planItemRendered plan) hp ?_
    cases hd : p.date_range <;> simp [planItemRendered, hd]
  · intro t
    by_cases h : t.date_string.isEmpty <;> simp [timelineRendered, h]
  · intro checklist
    simp [evidenceRendered]
  · intro steps x hx
    exact mem_map_columns Rendered.md hx
  · intro cases c hc
    refine mem_flatten_columns historicalCaseRendered hc ?_
    cases hu : c.url <;> simp [historicalCaseRendered, hu]
  · intro data item hitem
    constructor
    · intro p hp
      refine List.mem_flatten.mpr ⟨_, List.mem_map_of_mem _ hitem, ?_⟩
      exact List.mem_append_left _ (List.mem_map_of_mem _ hp)
    · intro p hp
      refine List.mem_flatten.mpr ⟨_, List.mem_map_of_mem _ hitem, ?_⟩
      exact List.mem_append_right _ (List.mem_map_of_mem _ hp)
  · intro s
    refine ⟨?_, ?_, ?_, ?_, ?_, ?_, ?_, ?_⟩
    all_goals try intro p hp
    all_goals by_cases h : s.ndps_sections.isEmpty <;> simp [courtSummaryRendered, h] <;> tauto
  · intro c
    refine ⟨?_, ?_, ?_, ?_, ?_, ?_, ?_, ?_⟩
    all_goals try intro p hp
    all_goals simp [chargesheetRendered] <;> tauto
  · intro dos donts x hx
    exact List.mem_append_left _ (List.mem_map_of_mem _ hx)
  · intro dos donts x hx
    exact List.mem_append_right _ (List.mem_map_of_mem _ hx)
  · intro w kv hkv
    exact mem_flatten_columns _ hkv (by simp)

/-- Witness for C5 at concrete section data. -/
theorem markdown_amended_witness :
    Rendered.md "v" ∈ firFactsRendered [("k", "v")] ∧
    Rendered.md "desc" ∈ sectionsRendered [⟨"20", "desc", "rel", none⟩] ∧
    Rendered.md "do it" ∈ investigationPlanRendered [⟨"t", none, "do it"⟩] ∧
    Rendered.md "tl" ∈ timelineRendered ⟨"2024", "tl"⟩ ∧
    Rendered.md "ev" ∈ evidenceRendered "ev" ∧
    Rendered.md "step" ∈ nextStepsRendered ["step"] ∧
    Rendered.md "sum" ∈ historicalCasesRendered [⟨"t", none, "sum"⟩] ∧
    Rendered.md "dp" ∈ defenceRebuttalRendered [⟨["dp"], ["rb"]⟩] ∧
    Rendered.md "core" ∈ courtSummaryRendered
      ⟨"ct", [], "core", "dp", "rec", "q", [], [], [], [], "jb", []⟩ ∧
    Rendered.md "core2" ∈ chargesheetRendered
      ⟨"ct", [], [], [], [], "core2", "dp", "rec", "q", [], [], [], [], "jb", []⟩ ∧
    Rendered.plain "d1" ∈ dosDontsRendered ["d1"] ["d2"] ∧
    Rendered.plain "d2" ∈ dosDontsRendered ["d1"] ["d2"] ∧
    Rendered.plain "det" ∈ weaknessesRendered [("head", "det")] := by
  have h := markdown_amended
  refine ⟨h.1 [("k", "v")] ("k", "v") (by decide),
    (h.2.1 [⟨"20", "desc", "rel", none⟩] ⟨"20", "desc", "rel", none⟩ (by decide)).1,
    h.2.2.1 [⟨"t", none, "do it"⟩] ⟨"t", none, "do it"⟩ (by decide),
    h.2.2.2.1 ⟨"2024", "tl"⟩,
    h.2.2.2.2.1 "ev",
    h.2.2.2.2.2.1 ["step"] "step" (by decide),
    h.2.2.2.2.2.2.1 [⟨"t", none, "sum"⟩] ⟨"t", none, "sum"⟩ (by decide),
    (h.2.2.2.2.2.2.2.1 [⟨["dp"], ["rb"]⟩] ⟨["dp"], ["rb"]⟩ (by decide)).1 "dp" (by decide),
    (h.2.2.2.2.2.2.2.2.1 ⟨"ct", [], "core", "dp", "rec", "q", [], [], [], [], "jb", []⟩).1,
    (h.2.2.2.2.2.2.2.2.2.1
      ⟨"ct", [], [], [], [], "core2", "dp", "rec", "q", [], [], [], [], "jb", []⟩).1,
    h.2.2.2.2.2.2.2.2.2.2.1 ["d1"] ["d2"] "d1" (by decide),
    h.2.2.2.2.2.2.2.2.2.2.2.1 ["d1"] ["d2"] "d2" (by decide),
    h.2.2.2.2.2.2.2.2.2.2.2.2 [("head", "det")] ("head", "det") (by decide)⟩

theorem getElem?_indexOf_of_mem [DecidableEq α] {l : List α} {x : α} (h : x ∈ l) :
    l[l.indexOf x]? = some x :=
  List.getElem?_indexOf h

/-- C10 (counterexample): `NextStepsSection` displays no number at all — for
the one-step list its rendered text nodes are just the Markdown step, with no
`1` badge — so the claim's assertion about the number displayed next to each
next-steps item is false. -/
theorem numbered_claim_counterexample : ¬ claimC10Statement := by
  intro h
  have h0 := h.2 ["a"] "a" (by decide)
  exact absurd h0 (by decide)

/-- C10 (amended): only `InvestigationPlanSection` displays a number next to
each item (`NextStepsSection` computes `indexOf` too but uses it solely as
the React key and renders no number).  The displayed plan number is recovered
with `plan.indexOf`: when the plan has no duplicates the item taken from
original index `i` shows number `i + 1`; in general each rendered item shows
one more than the index of the first equal element, and that number is among
the section's rendered text nodes; a plan listing the same item twice makes
two rendered items show the same number. -/
theorem numbered_two_column_plan (plan : List PlanItem) :
    (plan.Nodup → ∀ (i : Nat) (p : PlanItem), plan[2 * i]? = some p →
      (leftNumbered plan)[i]? = some (2 * i + 1, p)) ∧
    (plan.Nodup → ∀ (i : Nat) (p : PlanItem), plan[2 * i + 1]? = some p →
      (rightNumbered plan)[i]? = some (2 * i + 2, p)) ∧
    (∀ (n : Nat) (p : PlanItem), (n, p) ∈ leftNumbered plan ++ rightNumbered plan →
      n = plan.indexOf p + 1 ∧ plan[plan.indexOf p]? = some p ∧
      Rendered.plain (toString n) ∈ investigationPlanRendered plan) ∧
    (leftNumbered [⟨"t", none, "d"⟩, ⟨"t", none, "d"⟩] = [(1, ⟨"t", none, "d"⟩)] ∧
      rightNumbered [⟨"t", none, "d"⟩, ⟨"t", none, "d"⟩] = [(1, ⟨"t", none, "d"⟩)]) := by
  refine ⟨?_, ?_, ?_, by decide⟩
  · intro hnd i p hx
    have hcol : (leftColumn plan)[i]? = some p := by
      rw [leftColumn_eq_evens, (evens_odds_getElem? plan).1 i, hx]
    have hidx : plan.indexOf p = 2 * i := by
      rcases List.getElem?_eq_some_iff.mp hx with ⟨hlt, hget⟩
      have := List.indexOf_getElem hnd (2 * i) hlt
      rw [hget] at this
      exact this
    rw [leftNumbered, List.getElem?_map, hcol]
    simp [hidx]
  · intro hnd i p hx
    have hcol : (rightColumn plan)[i]? = some p := by
      rw [rightColumn_eq_odds, (evens_odds_getElem? plan).2 i, hx]
    have hidx : plan.indexOf p = 2 * i + 1 := by
      rcases List.getElem?_eq_some_iff.mp hx with ⟨hlt, hget⟩
      have := List.indexOf_getElem hnd (2 * i + 1) hlt
      rw [hget] at this
      exact this
    rw [rightNumbered, List.getElem?_map, hcol]
    simp [hidx]
  · intro n p hmem
    rcases List.mem_append.mp hmem with h | h
    · rcases List.mem_map.mp h with ⟨y, hy, heq⟩
      have hxy : y = p := congrArg Prod.snd heq
      have hn : n = plan.indexOf p + 1 := by
        rw [← hxy]
        exact (congrArg Prod.fst heq).symm
      have hy2 : p ∈ leftColumn plan := hxy ▸ hy
      have hmemp : p ∈ plan := by
        have h2 : p ∈ interleave (leftColumn plan) (rightColumn plan) :=
          mem_interleave.mpr (Or.inl hy2)
        rwa [interleave_leftColumn_rightColumn] at h2
      refine ⟨hn, getElem?_indexOf_of_mem hmemp, ?_⟩
      rw [hn]
      simp only [investigationPlanRendered]
      refine List.mem_append_left _ (List.mem_flatten.mpr
        ⟨planItemRendered plan p, List.mem_map_of_mem _ hy2, ?_⟩)
      simp [planItemRendered]
    · rcases List.mem_map.mp h with ⟨y, hy, heq⟩
      have hxy : y = p := congrArg Prod.snd heq
      have hn : n = plan.indexOf p + 1 := by
        rw [← hxy]
        exact (congrArg Prod.fst heq).symm
      have hy2 : p ∈ rightColumn plan := hxy ▸ hy
      have hmemp : p ∈ plan := by
        have h2 : p ∈ interleave (leftColumn plan) (rightColumn plan) :=
          mem_interleave.mpr (Or.inr hy2)
        rwa [interleave_leftColumn_rightColumn] at h2
      refine ⟨hn, getElem?_indexOf_of_mem hmemp, ?_⟩
      rw [hn]
      simp only [investigationPlanRendered]
      refine List.mem_append_right _ (List.mem_flatten.mpr
        ⟨planItemRendered plan p, List.mem_map_of_mem _ hy2, ?_⟩)
      simp [planItemRendered]

/-- Witness for C10 on concrete investigation plans. -/
theorem numbered_two_column_plan_witness :
    (leftNumbered [⟨"a", none, "da"⟩, ⟨"b", none, "db"⟩, ⟨"c", none, "dc"⟩])[1]? =
      some (2 * 1 + 1, ⟨"c", none, "dc"⟩) ∧
    (rightNumbered [⟨"a", none, "da"⟩, ⟨"b", none, "db"⟩, ⟨"c", none, "dc"⟩])[0]? =
      some (2 * 0 + 2, ⟨"b", none, "db"⟩) ∧
    (1 = [(⟨"a", none, "da"⟩ : PlanItem), ⟨"b", none, "db"⟩].indexOf ⟨"a", none, "da"⟩ + 1 ∧
      [(⟨"a", none, "da"⟩ : PlanItem),
          ⟨"b", none, "db"⟩][[(⟨"a", none, "da"⟩ : PlanItem),
          ⟨"b", none, "db"⟩].indexOf ⟨"a", none, "da"⟩]? = some ⟨"a", none, "da"⟩ ∧
      Rendered.plain (toString 1) ∈
        investigationPlanRendered [⟨"a", none, "da"⟩, ⟨"b", none, "db"⟩]) := by
  refine ⟨(numbered_two_column_plan
      [⟨"a", none, "da"⟩, ⟨"b", none, "db"⟩, ⟨"c", none, "dc"⟩]).1
      (by decide) 1 ⟨"c", none, "dc"⟩ (by decide),
    (numbered_two_column_plan
      [⟨"a", none, "da"⟩, ⟨"b", none, "db"⟩, ⟨"c", none, "dc"⟩]).2.1
      (by decide) 0 ⟨"b", none, "db"⟩ (by decide),
    (numbered_two_column_plan [⟨"a", none, "da"⟩, ⟨"b", none, "db"⟩]).2.2.1 1
      ⟨"a", none, "da"⟩ (by decide)⟩

end FIRLA
